import Mathlib

set_option autoImplicit false

/-
Verification of the batch image converter (webp_jpeg_converter.py) against its
natural-language specification.  The Python function `convert_and_rename_images`
is shallow-embedded below: filesystem effects become explicit state passing over
a model of the relevant directories, PIL image operations become pure functions
on a pixel-grid image model, and exceptions become `Except`.
-/

/- ## String helpers mirroring Python's pathlib / int() -/

/-- Model of Python `pathlib.PurePath.suffix`: the final dot-component of the
name, dot included, provided the dot is neither the first nor the last
character; otherwise the empty string. -/
def pySuffix (s : String) : String :=
  let cs := s.data
  let n := cs.length
  match (List.range n).filter (fun i => cs.getD i 'x' = '.') |>.getLast? with
  | some i => if 0 < i && i + 1 < n then String.mk (cs.drop i) else ""
  | none => ""

/-- Model of Python `pathlib.PurePath.stem`: the name with `pySuffix` removed. -/
def pyStem (s : String) : String :=
  let cs := s.data
  let n := cs.length
  match (List.range n).filter (fun i => cs.getD i 'x' = '.') |>.getLast? with
  | some i => if 0 < i && i + 1 < n then String.mk (cs.take i) else s
  | none => s

/-- Whitespace characters stripped by Python `int(str)`. -/
def pyIsSpace (c : Char) : Bool :=
  c = ' ' || c = '\t' || c = '\n' || c = '\r' || c = '\x0b' || c = '\x0c'

/-- Digit run as accepted by Python `int()`: digits with single underscores
allowed strictly between digits (`1_2` is valid, `_1`, `1_`, `1__2` are not).
Returns the digit characters with underscores removed. -/
def parseDigitsU : List Char → Option (List Char)
  | [] => none
  | [c] => if c.isDigit then some [c] else none
  | c :: d :: rest =>
    if c.isDigit then
      if d = '_' then
        match parseDigitsU rest with
        | some ds => some (c :: ds)
        | none => none
      else
        match parseDigitsU (d :: rest) with
        | some ds => some (c :: ds)
        | none => none
    else none

/-- Numeric value of a list of decimal digit characters. -/
def digitsVal (ds : List Char) : Nat :=
  ds.foldl (fun a c => a * 10 + (c.toNat - 48)) 0

/-- Model of Python `int(str)` on ASCII input: optional surrounding whitespace,
optional sign, then a digit run (underscore separators allowed between digits).
Returns `none` where Python raises `ValueError`.  (Non-ASCII digit alphabets,
which CPython also accepts, are outside the model.) -/
def parsePyInt (s : String) : Option Int :=
  let cs := (s.data.dropWhile pyIsSpace).reverse.dropWhile pyIsSpace |>.reverse
  match cs with
  | [] => none
  | c :: rest =>
    let signed : Bool × List Char :=
      if c = '-' then (true, rest) else if c = '+' then (false, rest) else (false, c :: rest)
    match parseDigitsU signed.2 with
    | some ds => some (if signed.1 then -(digitsVal ds : Int) else (digitsVal ds : Int))
    | none => none

/-- Model of the Python format expression in line 89, `f"{counter:03d}"`:
decimal rendering, sign included, left-padded with zeros to total width 3. -/
def fmt03d (n : Int) : String :=
  let ds := Nat.repr n.natAbs
  let sign := if n < 0 then "-" else ""
  let padLen := 3 - (sign.length + ds.length)
  sign ++ String.mk (List.replicate padLen '0') ++ ds

/-- ASCII lower-casing of one character, as Python `str.lower()` performs on
the ASCII extensions involved here. -/
def lowerChar (c : Char) : Char :=
  if 65 ≤ c.toNat && c.toNat ≤ 90 then Char.ofNat (c.toNat + 32) else c

/-- Model of Python `str.lower()` (ASCII range). -/
def strLower (s : String) : String := String.mk (s.data.map lowerChar)

/-- Character-list version of Python `str.startswith`. -/
def listLeads : List Char → List Char → Bool
  | [], _ => true
  | _ :: _, [] => false
  | p :: ps, c :: cs => p == c && listLeads ps cs

/-- Model of Python `name.startswith(pre)`. -/
def strStarts (s pre : String) : Bool := listLeads pre.data s.data

/-- Lexicographic comparison of character lists by code point, the order
Python uses both for `str` and for same-directory `Path` sorting. -/
def charsLe : List Char → List Char → Bool
  | [], _ => true
  | _ :: _, [] => false
  | a :: as, b :: bs =>
    if a.toNat < b.toNat then true
    else if b.toNat < a.toNat then false
    else charsLe as bs

/-- Lexicographic string order (Python `<=` on `str`). -/
def strLe (a b : String) : Prop := charsLe a.data b.data = true

instance : DecidableRel strLe :=
  fun a b => inferInstanceAs (Decidable (charsLe a.data b.data = true))

theorem charsLe_total : ∀ as bs : List Char, charsLe as bs = true ∨ charsLe bs as = true := by
  intro as
  induction as with
  | nil => intro bs; exact Or.inl rfl
  | cons a as ih =>
    intro bs
    cases bs with
    | nil => exact Or.inr rfl
    | cons b bs =>
      simp only [charsLe]
      rcases Nat.lt_trichotomy a.toNat b.toNat with h | h | h
      · left; simp [h]
      · rcases ih bs with h2 | h2 <;>
          [left; right] <;> simp [h, h2]
      · right; simp [h, Nat.lt_asymm h]

theorem charsLe_trans : ∀ as bs cs : List Char,
    charsLe as bs = true → charsLe bs cs = true → charsLe as cs = true := by
  intro as
  induction as with
  | nil => intro bs cs _ _; rfl
  | cons a as ih =>
    intro bs cs hab hbc
    cases bs with
    | nil => simp [charsLe] at hab
    | cons b bs =>
      cases cs with
      | nil => simp [charsLe] at hbc
      | cons c cs =>
        simp only [charsLe] at hab hbc ⊢
        split_ifs at hab hbc ⊢ <;> first
          | rfl
          | omega
          | (exact ih bs cs hab hbc)

instance : IsTotal String strLe := ⟨fun a b => charsLe_total a.data b.data⟩

instance : IsTrans String strLe := ⟨fun a b c => charsLe_trans a.data b.data c.data⟩

/- ## PIL image model

An image is a pixel grid; each pixel is a 4-tuple of channel values whose
interpretation depends on the mode:
  RGB  : (r, g, b, _)      RGBA : (r, g, b, a)
  LA   : (l, a, _, _)      L    : (l, _, _, _)
  P    : (palette index, _, _, _), with `palette` mapping indices to RGBA.
These are the modes the converter's branch at lines 127-136 distinguishes. -/

inductive ImgMode where
  | RGB | RGBA | LA | P | L
  deriving DecidableEq, Repr

instance : BEq ImgMode := ⟨fun a b => decide (a = b)⟩

structure PImage where
  width : Nat
  height : Nat
  mode : ImgMode
  px : Nat → Nat → Nat × Nat × Nat × Nat
  palette : Nat → Nat × Nat × Nat × Nat

/-- PIL's exact rounded division by 255 (`MULDIV255` in the C sources):
`((a*b+128) >> 8 + (a*b+128)) >> 8`. -/
def muldiv255 (a b : Nat) : Nat :=
  let t := a * b + 128
  (t / 256 + t) / 256

/-- PIL's per-channel blend used by `paste` with an 8-bit mask `m`:
`bg` weighted by `255-m` plus `src` weighted by `m`. -/
def blendChan (bg src m : Nat) : Nat :=
  muldiv255 bg (255 - m) + muldiv255 src m

/-- Color channels of a pixel as RGB, following PIL's mode conversions
(luminance replicated, palette looked up). -/
def rgbAt (img : PImage) (x y : Nat) : Nat × Nat × Nat :=
  let p := img.px x y
  match img.mode with
  | .RGB => (p.1, p.2.1, p.2.2.1)
  | .RGBA => (p.1, p.2.1, p.2.2.1)
  | .LA => (p.1, p.1, p.1)
  | .L => (p.1, p.1, p.1)
  | .P => let q := img.palette p.1; (q.1, q.2.1, q.2.2.1)

/-- Alpha channel of a pixel (opaque 255 for modes without alpha).  For RGBA
this is the last band, i.e. what `img.split()[-1]` yields in line 133. -/
def alphaAt (img : PImage) (x y : Nat) : Nat :=
  let p := img.px x y
  match img.mode with
  | .RGB => 255
  | .RGBA => p.2.2.2
  | .LA => p.2.1
  | .L => 255
  | .P => (img.palette p.1).2.2.2

/-- Model of PIL `img.convert('RGBA')` (line 132). -/
def convertRGBA (img : PImage) : PImage :=
  { img with
    mode := .RGBA
    px := fun x y =>
      let (r, g, b) := rgbAt img x y
      (r, g, b, alphaAt img x y) }

/-- Model of PIL `img.convert('RGB')` (line 136): alpha dropped, luminance
replicated, palette looked up. -/
def convertRGB (img : PImage) : PImage :=
  { img with
    mode := .RGB
    px := fun x y =>
      let (r, g, b) := rgbAt img x y
      (r, g, b, 255) }

/-- Model of `Image.new('RGB', img.size, (255, 255, 255))` (line 130). -/
def newRGBWhite (w h : Nat) : PImage :=
  { width := w, height := h, mode := .RGB
    px := fun _ _ => (255, 255, 255, 255)
    palette := fun _ => (0, 0, 0, 0) }

/-- Model of PIL `bg.paste(src, mask)` over the whole canvas (line 133): with a
mask, each channel is alpha-blended; without one, the source (converted to the
background's RGB mode) simply replaces the background. -/
def pasteOnto (bg : PImage) (src : PImage) (mask : Option (Nat → Nat → Nat)) : PImage :=
  { bg with
    px := fun x y =>
      let (r, g, b) := rgbAt src x y
      match mask with
      | none => (r, g, b, 255)
      | some m =>
        let a := m x y
        let q := bg.px x y
        (blendChan q.1 r a, blendChan q.2.1 g a, blendChan q.2.2.1 b a, 255) }

/-- Embedding of the mode-adjustment branch, lines 127-136: only for JPEG
output, RGBA/LA/P images are pasted onto a white canvas (P first expanded to
RGBA; the mask is the alpha band only when the pasted image is RGBA), and any
other non-RGB mode is converted to RGB. -/
def processImage (output_format : String) (img : PImage) : PImage :=
  if output_format == "JPEG" then
    if img.mode == .RGBA || img.mode == .LA || img.mode == .P then
      let background := newRGBWhite img.width img.height
      let img1 := if img.mode == .P then convertRGBA img else img
      pasteOnto background img1
        (if img1.mode == .RGBA then some (alphaAt img1) else none)
    else if !(img.mode == .RGB) then convertRGB img
    else img
  else img

/-- Modes PIL's JPEG encoder accepts among the modes modelled here (the others
raise `OSError: cannot write mode ... as JPEG`). -/
def canEncodeJPEG : ImgMode → Bool
  | .RGB => true
  | .L => true
  | _ => false

/-- Printable name of a mode, for error messages. -/
def modeName : ImgMode → String
  | .RGB => "RGB"
  | .RGBA => "RGBA"
  | .LA => "LA"
  | .P => "P"
  | .L => "L"

/-- An output file as written by `img.save(path, 'JPEG', quality=95,
optimize=True)`: the encoding format, encoder options and encoded image. -/
structure SavedFile where
  fmt : String
  quality : Nat
  optimize : Bool
  image : PImage

/-- Embedding of line 139, `img.save(new_file_path, 'JPEG', quality=95,
optimize=True)`: the format argument is the literal string 'JPEG' regardless of
the requested output format; non-encodable modes raise. -/
def pilSaveJPEG (img : PImage) : Except String SavedFile :=
  if canEncodeJPEG img.mode then
    .ok { fmt := "JPEG", quality := 95, optimize := true, image := img }
  else
    .error ("cannot write mode " ++ modeName img.mode ++ " as JPEG")

/-- Follows the spec's words (§4.1 step 3 / claim C2), for comparison with
`processImage`: "construct an opaque white-background canvas of the same
dimensions and composite the source image onto it using its alpha channel as
the blend mask (palette-mode images are first expanded to full color+alpha
before compositing)". -/
def specCompositeWhite (img : PImage) : PImage :=
  let img1 := if img.mode == .P then convertRGBA img else img
  { width := img.width, height := img.height, mode := .RGB
    palette := fun _ => (0, 0, 0, 0)
    px := fun x y =>
      let (r, g, b) := rgbAt img1 x y
      let a := alphaAt img1 x y
      (blendChan 255 r a, blendChan 255 g a, blendChan 255 b a, 255) }

/- ## Filesystem and invocation model -/

/-- Direct child of a directory: its name and whether it is a regular file. -/
structure DirEntry where
  name : String
  isFile : Bool
  deriving DecidableEq, Repr

/-- The immutable per-invocation arguments of `convert_and_rename_images`
(the ConversionRequest of the spec).  `output_folder = none` models Python's
falsy `output_folder` (the in-place mode); `hasLogger` records whether a logger
callback was supplied (line 107 branches on it). -/
structure Config where
  output_folder : Option String
  pfx : String
  start_number : Int
  rename_files : Bool
  overwrite_originals : Bool
  output_format : String
  output_ext : String
  hasLogger : Bool

/-- The first valid answer the interactive overwrite prompt (line 110)
eventually reads: overwrite this one / skip / overwrite all; `promptEOF` models
`input()` raising (an `EOFError`, caught by the enclosing handler).  Invalid
answers are re-prompted by the `while True` loop and never observed. -/
inductive UserResp where
  | yes | no | all | promptEOF
  deriving DecidableEq, Repr

/-- The environment an invocation runs against: existence and children of the
input folder, whether creating the output folder raises, the pre-existing
children of the explicit output folder, and the per-file outcomes of
`Image.open`, `input()` and `unlink()`. -/
structure World where
  inputExists : Bool
  inputIsDir : Bool
  inputEntries : List DirEntry
  mkdirFails : Bool
  outputEntries : List DirEntry
  loadImage : String → Except String PImage
  userResp : String → UserResp
  unlinkFails : String → Bool

/-- The supported extension set of line 47. -/
def supportedExt (s : String) : Bool :=
  s ∈ [".webp", ".jpg", ".jpeg", ".png", ".bmp", ".tiff", ".tif"]

/-- The discovery filter of line 52: regular files whose lower-cased extension
is supported. -/
def keepFile (e : DirEntry) : Bool :=
  e.isFile && supportedExt (strLower (pySuffix e.name))

/-- Embedding of lines 50-53 and 62: the kept direct children, sorted.
`list.sort()` on same-directory `Path`s orders by filename, modelled by a
stable insertion sort (names of direct children are distinct, so any sort with
the same order agrees with CPython's). -/
def discoverFiles (entries : List DirEntry) : List String :=
  List.insertionSort strLe ((entries.filter keepFile).map DirEntry.name)

/-- Embedding of lines 66-73: numbers parsed from output-folder files whose
lower-cased extension equals the configured one and whose name starts with
`<pfx>_`; unparsable names are skipped silently. -/
def scanExistingNumbers (entries : List DirEntry) (pfx ext : String) : List Int :=
  entries.filterMap fun f =>
    if f.isFile && strLower (pySuffix f.name) == ext && strStarts f.name (pfx ++ "_") then
      parsePyInt ((pyStem f.name).drop (pfx.length + 1))
    else none

/-- Python `max` over a list, `none` on the empty list. -/
def listMax : List Int → Option Int
  | [] => none
  | n :: ns => some (ns.foldl max n)

/-- Embedding of lines 65-79: the initial sequence counter. -/
def startCounter (entries : List DirEntry) (pfx ext : String) (start : Int)
    (rename : Bool) : Int :=
  if rename then
    match scanExistingNumbers entries pfx ext with
    | [] => start
    | n :: ns =>
      let m := ns.foldl max n
      if start ≤ m then m + 1 else start
  else start

/-- Embedding of lines 88-93: the candidate output filename. -/
def candidateName (cfg : Config) (counter : Int) (srcName : String) : String :=
  if cfg.rename_files then cfg.pfx ++ "_" ++ fmt03d counter ++ cfg.output_ext
  else pyStem srcName ++ cfg.output_ext

/-- The skip message of line 100. -/
def skipExistsMsg (srcName newFilename : String) : String :=
  "Skipping " ++ srcName ++ " - output file " ++ newFilename ++ " already exists"

/-- The mutable state of the processing loop, plus the observable effect
trace: files written to the output folder, source files deleted, log lines
emitted, and the counter value at the start of each iteration. -/
structure BatchState where
  counter : Int
  converted : Nat
  renamed : Nat
  acceptAll : Bool
  outDirNames : List String
  written : List (String × SavedFile)
  deleted : List String
  log : List String
  trace : List Int

/-- Embedding of the `except` handler, lines 158-162: log the error and, in
renaming mode, still advance the counter. -/
def exceptPart (cfg : Config) (st : BatchState) (srcName e : String) : BatchState :=
  let st1 := { st with log := st.log ++ ["Error processing " ++ srcName ++ ": " ++ e] }
  if cfg.rename_files then { st1 with counter := st1.counter + 1 } else st1

/-- Embedding of lines 124-156: open the image, adjust its mode, save it,
log, update the tallies, optionally delete the source, and advance the counter
in renaming mode.  `aliasSameDir` records whether the resolved output folder is
the input folder, so that deleting a source also removes it from the modelled
output listing.  Load and save failures fall to the `except` handler. -/
def convertPart (cfg : Config) (aliasSameDir : Bool) (world : World)
    (st : BatchState) (srcName newFilename : String) : BatchState :=
  match world.loadImage srcName with
  | .error e => exceptPart cfg st srcName e
  | .ok img =>
    match pilSaveJPEG (processImage cfg.output_format img) with
    | .error e => exceptPart cfg st srcName e
    | .ok saved =>
      let st1 := { st with
        outDirNames :=
          if st.outDirNames.contains newFilename then st.outDirNames
          else st.outDirNames ++ [newFilename]
        written := st.written ++ [(newFilename, saved)]
        log := st.log ++ ["Converted: " ++ srcName ++ " → " ++ newFilename] }
      let st2 :=
        if strLower (pySuffix srcName) == ".webp" then
          { st1 with converted := st1.converted + 1 }
        else
          { st1 with renamed := st1.renamed + 1 }
      let st3 :=
        if cfg.overwrite_originals && (cfg.output_folder.isSome || srcName != newFilename) then
          if world.unlinkFails srcName then
            { st2 with log := st2.log ++
                ["Warning: Could not delete original file " ++ srcName ++ ": <oserror>"] }
          else
            { st2 with
              deleted := st2.deleted ++ [srcName]
              outDirNames :=
                if aliasSameDir then st2.outDirNames.erase srcName else st2.outDirNames }
        else st2
      if cfg.rename_files then { st3 with counter := st3.counter + 1 } else st3

/-- Embedding of one iteration of the loop at lines 85-162: record the
counter, form the candidate name, run the conflict check of lines 98-122 (skip
in renaming mode; in non-renaming mode skip in GUI mode, else follow the
prompt answer), and otherwise convert. -/
def stepFile (cfg : Config) (aliasSameDir : Bool) (world : World)
    (st0 : BatchState) (srcName : String) : BatchState :=
  let st := { st0 with trace := st0.trace ++ [st0.counter] }
  let newFilename := candidateName cfg st.counter srcName
  if st.outDirNames.contains newFilename && !cfg.overwrite_originals then
    if cfg.rename_files then
      { st with
        log := st.log ++ [skipExistsMsg srcName newFilename]
        counter := st.counter + 1 }
    else if !st.acceptAll then
      if cfg.hasLogger then
        { st with log := st.log ++
            ["Skipping " ++ srcName ++ " - output file " ++ newFilename ++
              " already exists (GUI mode)"] }
      else
        match world.userResp srcName with
        | .yes => convertPart cfg aliasSameDir world st srcName newFilename
        | .no => { st with log := st.log ++ ["Skipping " ++ srcName] }
        | .all =>
          convertPart cfg aliasSameDir world { st with acceptAll := true } srcName newFilename
        | .promptEOF => exceptPart cfg st srcName "EOFError"
    else
      convertPart cfg aliasSameDir world st srcName newFilename
  else
    convertPart cfg aliasSameDir world st srcName newFilename

/-- The whole processing loop, lines 85-162. -/
def runLoop (cfg : Config) (aliasSameDir : Bool) (world : World)
    (st : BatchState) (files : List String) : BatchState :=
  files.foldl (stepFile cfg aliasSameDir world) st

/-- Observable result of a completed (non-raising) invocation. -/
structure ConvResult where
  log : List String
  written : List (String × SavedFile)
  deleted : List String
  converted : Nat
  renamed : Nat
  finalCounter : Int
  trace : List Int

/-- Embedding of `convert_and_rename_images` (lines 13-167).  `.error` models
an exception propagating to the caller: `mkdir` (line 42) and `iterdir`
(line 51) run outside the per-file `try`, so their failures raise.  `.ok`
carries the log lines and filesystem effects of a normal return. -/
def convert_and_rename_images (inputDir : String) (cfg : Config) (world : World) :
    Except String ConvResult :=
  if world.inputExists = false then
    .ok ⟨["Error: Folder '" ++ inputDir ++ "' does not exist."], [], [], 0, 0, 0, []⟩
  else if cfg.output_folder.isSome && world.mkdirFails then
    .error "OSError: cannot create output folder"
  else if world.inputIsDir = false then
    .error ("NotADirectoryError: " ++ inputDir)
  else
    let files := discoverFiles world.inputEntries
    if files.isEmpty then
      .ok ⟨["No supported image files found in the folder."], [], [], 0, 0, 0, []⟩
    else
      let outEntries :=
        if cfg.output_folder.isSome then world.outputEntries else world.inputEntries
      let counter0 :=
        startCounter outEntries cfg.pfx cfg.output_ext cfg.start_number cfg.rename_files
      let aliasSameDir :=
        match cfg.output_folder with
        | none => true
        | some o => o == inputDir
      let st0 : BatchState :=
        ⟨counter0, 0, 0, false, outEntries.map DirEntry.name, [], [],
          ["Found " ++ toString files.length ++ " image files to process."], []⟩
      let stF := runLoop cfg aliasSameDir world st0 files
      .ok ⟨stF.log ++
            ["\nProcessing complete!",
             "WebP files converted: " ++ toString stF.converted,
             "Other files renamed: " ++ toString stF.renamed,
             "Total files processed: " ++ toString (stF.converted + stF.renamed)],
          stF.written, stF.deleted, stF.converted, stF.renamed, stF.counter, stF.trace⟩

/- ## Concrete fixtures for counterexamples and witnesses -/

/-- A 1x1 opaque RGB image. -/
def imgRGB1 : PImage :=
  ⟨1, 1, .RGB, fun _ _ => (10, 20, 30, 255), fun _ => (0, 0, 0, 0)⟩

/-- A 1x1 RGBA image whose only pixel is fully transparent. -/
def imgRGBA1 : PImage :=
  ⟨1, 1, .RGBA, fun _ _ => (10, 20, 30, 0), fun _ => (0, 0, 0, 0)⟩

/-- A 1x1 LA image whose only pixel is black and fully transparent. -/
def imgLA1 : PImage :=
  ⟨1, 1, .LA, fun _ _ => (0, 0, 0, 0), fun _ => (0, 0, 0, 0)⟩

/-- A benign default world: empty directories, everything succeeding. -/
def baseWorld : World :=
  { inputExists := true, inputIsDir := true, inputEntries := [],
    mkdirFails := false, outputEntries := [],
    loadImage := fun _ => .error "unreadable",
    userResp := fun _ => .yes,
    unlinkFails := fun _ => false }

/-- A renaming request for PNG output into an explicit folder. -/
def cfgPNG : Config :=
  { output_folder := some "/out", pfx := "image", start_number := 1,
    rename_files := true, overwrite_originals := false,
    output_format := "PNG", output_ext := ".png", hasLogger := true }

/-- World for C1: one RGB source file. -/
def worldC1a : World :=
  { baseWorld with
    inputEntries := [⟨"a.webp", true⟩]
    loadImage := fun _ => .ok imgRGB1 }

/-- World for C1: one fully transparent RGBA source file. -/
def worldC1b : World :=
  { baseWorld with
    inputEntries := [⟨"a.webp", true⟩]
    loadImage := fun _ => .ok imgRGBA1 }

/-- Renaming request with the literal prefix of the C3 example. -/
def cfgC3ex : Config :=
  { cfgPNG with pfx := "prefix" }

/-- World for the C3 example: output folder already holds prefix_001..005. -/
def worldC3ex : World :=
  { baseWorld with
    inputEntries := [⟨"a.png", true⟩]
    outputEntries :=
      [⟨"prefix_001.png", true⟩, ⟨"prefix_002.png", true⟩, ⟨"prefix_003.png", true⟩,
       ⟨"prefix_004.png", true⟩, ⟨"prefix_005.png", true⟩]
    loadImage := fun _ => .ok imgRGB1 }

/-- Non-renaming, delete-originals request whose explicit output folder is the
input folder itself. -/
def cfgC6ex : Config :=
  { output_folder := some "/d", pfx := "image", start_number := 1,
    rename_files := false, overwrite_originals := true,
    output_format := "JPEG", output_ext := ".jpg", hasLogger := true }

/-- World for C6: the folder /d holds a single a.jpg, read as an RGB image. -/
def worldC6ex : World :=
  { baseWorld with
    inputEntries := [⟨"a.jpg", true⟩]
    outputEntries := [⟨"a.jpg", true⟩]
    loadImage := fun _ => .ok imgRGB1 }

/-- World for C5: the input path exists but is a regular file, so `iterdir`
raises. -/
def worldC5ex : World :=
  { baseWorld with inputIsDir := false }

/- ## Helper lemmas about the loop state -/

theorem exceptPart_counter (cfg : Config) (st : BatchState) (s e : String) :
    (exceptPart cfg st s e).counter =
      if cfg.rename_files then st.counter + 1 else st.counter := by
  unfold exceptPart; split_ifs <;> rfl

theorem exceptPart_trace (cfg : Config) (st : BatchState) (s e : String) :
    (exceptPart cfg st s e).trace = st.trace := by
  unfold exceptPart; split_ifs <;> rfl

theorem exceptPart_deleted (cfg : Config) (st : BatchState) (s e : String) :
    (exceptPart cfg st s e).deleted = st.deleted := by
  unfold exceptPart; split_ifs <;> rfl

theorem convertPart_counter (cfg : Config) (a : Bool) (w : World) (st : BatchState)
    (src nf : String) :
    (convertPart cfg a w st src nf).counter =
      if cfg.rename_files then st.counter + 1 else st.counter := by
  unfold convertPart
  cases w.loadImage src with
  | error e => dsimp only; exact exceptPart_counter ..
  | ok img =>
    dsimp only
    cases pilSaveJPEG (processImage cfg.output_format img) with
    | error e => dsimp only; exact exceptPart_counter ..
    | ok saved => dsimp only; split_ifs <;> rfl

theorem convertPart_trace (cfg : Config) (a : Bool) (w : World) (st : BatchState)
    (src nf : String) :
    (convertPart cfg a w st src nf).trace = st.trace := by
  unfold convertPart
  cases w.loadImage src with
  | error e => dsimp only; exact exceptPart_trace ..
  | ok img =>
    dsimp only
    cases pilSaveJPEG (processImage cfg.output_format img) with
    | error e => dsimp only; exact exceptPart_trace ..
    | ok saved => dsimp only; split_ifs <;> rfl

theorem convertPart_deleted (cfg : Config) (a : Bool) (w : World) (st : BatchState)
    (src nf : String) :
    (convertPart cfg a w st src nf).deleted = st.deleted ∨
      ((convertPart cfg a w st src nf).deleted = st.deleted ++ [src] ∧
        cfg.overwrite_originals = true ∧
        (cfg.output_folder.isSome = true ∨ src ≠ nf)) := by
  unfold convertPart
  cases w.loadImage src with
  | error e => exact Or.inl (exceptPart_deleted ..)
  | ok img =>
    dsimp only
    cases pilSaveJPEG (processImage cfg.output_format img) with
    | error e => exact Or.inl (exceptPart_deleted ..)
    | ok saved =>
      dsimp only
      cases how : cfg.overwrite_originals && (cfg.output_folder.isSome || src != nf) with
      | false =>
        simp only [how, Bool.false_eq_true, if_false]
        split_ifs <;> exact Or.inl rfl
      | true =>
        have hc : cfg.overwrite_originals = true ∧
            (cfg.output_folder.isSome = true ∨ src ≠ nf) := by
          simpa only [Bool.and_eq_true, Bool.or_eq_true, bne_iff_ne] using how
        simp only [how, if_true]
        split_ifs <;> first
          | exact Or.inl rfl
          | exact Or.inr ⟨rfl, hc.1, hc.2⟩

theorem stepFile_counter (cfg : Config) (a : Bool) (w : World) (st : BatchState)
    (src : String) (h : cfg.rename_files = true) :
    (stepFile cfg a w st src).counter = st.counter + 1 := by
  unfold stepFile
  dsimp only
  simp only [h, if_true]
  split_ifs with h1
  · rfl
  · rw [convertPart_counter]; simp [h]

theorem stepFile_trace (cfg : Config) (a : Bool) (w : World) (st : BatchState)
    (src : String) (h : cfg.rename_files = true) :
    (stepFile cfg a w st src).trace = st.trace ++ [st.counter] := by
  unfold stepFile
  dsimp only
  simp only [h, if_true]
  split_ifs with h1
  · rfl
  · rw [convertPart_trace]

theorem stepFile_deleted (cfg : Config) (a : Bool) (w : World) (st : BatchState)
    (src : String) :
    (stepFile cfg a w st src).deleted = st.deleted ∨
      ((stepFile cfg a w st src).deleted = st.deleted ++ [src] ∧
        cfg.overwrite_originals = true ∧
        (cfg.output_folder.isSome = true ∨ src ≠ candidateName cfg st.counter src)) := by
  unfold stepFile
  dsimp only
  split_ifs with h1 h2 h3 h4
  · exact Or.inl rfl
  · exact Or.inl rfl
  · cases w.userResp src <;> dsimp only
    · exact convertPart_deleted ..
    · exact Or.inl rfl
    · exact convertPart_deleted ..
    · exact Or.inl (exceptPart_deleted ..)
  · exact convertPart_deleted ..
  · exact convertPart_deleted ..

theorem stepFile_deleted_of_no_overwrite (cfg : Config) (a : Bool) (w : World)
    (st : BatchState) (src : String) (h : cfg.overwrite_originals = false) :
    (stepFile cfg a w st src).deleted = st.deleted := by
  rcases stepFile_deleted cfg a w st src with h1 | ⟨_, h2, _⟩
  · exact h1
  · rw [h] at h2; cases h2

theorem runLoop_deleted_of_no_overwrite (cfg : Config) (a : Bool) (w : World)
    (h : cfg.overwrite_originals = false) :
    ∀ (files : List String) (st : BatchState),
      (runLoop cfg a w st files).deleted = st.deleted := by
  intro files
  induction files with
  | nil => intro st; rfl
  | cons x xs ih =>
    intro st
    calc (runLoop cfg a w (stepFile cfg a w st x) xs).deleted
        = (stepFile cfg a w st x).deleted := ih _
      _ = st.deleted := stepFile_deleted_of_no_overwrite cfg a w st x h

theorem counter_trace_progression (c : Int) (n : Nat) :
    c :: (List.range n).map (fun (i : Nat) => c + 1 + (i : Int)) =
      (List.range (n + 1)).map (fun (i : Nat) => c + (i : Int)) := by
  rw [List.range_succ_eq_map, List.map_cons, List.map_map]
  simp only [Nat.cast_zero, add_zero]
  congr 1
  apply List.map_congr_left
  intro i _
  simp only [Function.comp_apply]
  push_cast
  ring

theorem runLoop_counter_trace (cfg : Config) (a : Bool) (w : World)
    (h : cfg.rename_files = true) :
    ∀ (files : List String) (st : BatchState),
      (runLoop cfg a w st files).counter = st.counter + files.length ∧
      (runLoop cfg a w st files).trace =
        st.trace ++ (List.range files.length).map (fun (i : Nat) => st.counter + (i : Int)) := by
  intro files
  induction files with
  | nil => intro st; simp [runLoop]
  | cons x xs ih =>
    intro st
    have hc := stepFile_counter cfg a w st x h
    have ht := stepFile_trace cfg a w st x h
    have hrec := ih (stepFile cfg a w st x)
    constructor
    · show (runLoop cfg a w (stepFile cfg a w st x) xs).counter = _
      rw [hrec.1, hc, List.length_cons]
      push_cast
      ring
    · show (runLoop cfg a w (stepFile cfg a w st x) xs).trace = _
      rw [hrec.2, ht, hc, List.length_cons, List.append_assoc,
        List.singleton_append, counter_trace_progression]

/- ## Claim theorems -/

/-- C1 (code bug): the claim says a PNG-format request produces a PNG-encoded
file with transparency preserved, but line 139 passes the literal format
'JPEG' to `save` regardless of `output_format`.  Concretely, with
outputFormat=PNG an RGB source is written JPEG-encoded (quality 95, optimized)
under a .png name, and an RGBA source raises in `save` (caught and logged as a
per-file error), so no output is written at all. -/
theorem C1_png_output_is_jpeg_encoded :
    ((convert_and_rename_images "/in" cfgPNG worldC1a).toOption.map
        (fun r => r.written.map (fun p => (p.1, p.2.fmt, p.2.quality, p.2.optimize))) =
      some [("image_001.png", "JPEG", 95, true)]) ∧
    ((convert_and_rename_images "/in" cfgPNG worldC1b).toOption.map
        (fun r => (r.written.length, r.log)) =
      some (0, ["Found 1 image files to process.",
                "Error processing a.webp: cannot write mode RGBA as JPEG",
                "\nProcessing complete!",
                "WebP files converted: 0",
                "Other files renamed: 0",
                "Total files processed: 0"])) := by
  constructor <;> decide

/-- C2 counterexample: for an LA-mode image, line 133 passes `mask=None`, so
the alpha channel is not used as a blend mask: a black, fully transparent LA
pixel stays black, while the claimed composite onto an opaque white canvas
would make it white. -/
theorem C2_counterexample_LA_not_composited :
    (processImage "JPEG" imgLA1).px 0 0 = (0, 0, 0, 255) ∧
    (specCompositeWhite imgLA1).px 0 0 = (255, 255, 255, 255) ∧
    (processImage "JPEG" imgLA1).px 0 0 ≠ (specCompositeWhite imgLA1).px 0 0 := by
  refine ⟨by decide, by decide, by decide⟩

/-- C5 counterexample: when the input path exists but is a regular file,
`iterdir` (line 51) runs outside the per-file handler and its exception
propagates to the caller, contradicting "never raises for any input". -/
theorem C5_counterexample_propagates :
    (convert_and_rename_images "/in" cfgPNG worldC5ex).isOk = false := by
  decide

/-- C6 counterexample: with the explicit output folder /d equal to the input
folder /d, delete-originals set, renaming off, and source a.jpg whose output
name is also a.jpg, line 149's condition (`output_folder or name differs`)
holds, so the just-written output file a.jpg is deleted. -/
theorem C6_counterexample_deletes_written_output :
    (convert_and_rename_images "/d" cfgC6ex worldC6ex).toOption.map
        (fun r => (r.written.map Prod.fst, r.deleted)) =
      some (["a.jpg"], ["a.jpg"]) := by
  decide

/-- C9: file discovery keeps exactly the direct children that are regular
files with a supported extension (case-insensitive), and processes them in
ascending filename order; notes.txt (and a directory) are never kept while
photo.WEBP is. -/
theorem C9_file_discovery (entries : List DirEntry) :
    List.Sorted strLe (discoverFiles entries) ∧
    List.Perm (discoverFiles entries) ((entries.filter keepFile).map DirEntry.name) ∧
    discoverFiles [⟨"notes.txt", true⟩, ⟨"sub.png", false⟩] = [] ∧
    discoverFiles [⟨"photo.WEBP", true⟩] = ["photo.WEBP"] := by
  exact ⟨List.sorted_insertionSort _ _, List.perm_insertionSort _ _, by decide, by decide⟩

/-- Entries used by the C3 witness: prefix_001.png through prefix_005.png. -/
def entriesC3 : List DirEntry :=
  [⟨"prefix_001.png", true⟩, ⟨"prefix_002.png", true⟩, ⟨"prefix_003.png", true⟩,
   ⟨"prefix_004.png", true⟩, ⟨"prefix_005.png", true⟩]

/-- C3: when renaming is enabled, the starting counter is the requested start
if no valid numbers were parsed from matching output-folder names; otherwise
`maxFound + 1` when `start ≤ maxFound` and `start` when `maxFound < start`.
With existing prefix_001..prefix_005 and requestedStart 1, the batch's first
written file is prefix_006.png. -/
theorem C3_initial_counter (entries : List DirEntry) (pfx ext : String) (start m : Int) :
    (scanExistingNumbers entries pfx ext = [] →
      startCounter entries pfx ext start true = start) ∧
    (listMax (scanExistingNumbers entries pfx ext) = some m →
      (start ≤ m → startCounter entries pfx ext start true = m + 1) ∧
      (m < start → startCounter entries pfx ext start true = start)) ∧
    (convert_and_rename_images "/in" cfgC3ex worldC3ex).toOption.map
        (fun r => r.written.map Prod.fst) = some ["prefix_006.png"] := by
  refine ⟨?_, ?_, by decide⟩
  · intro h
    unfold startCounter
    rw [h]
    rfl
  · intro h
    unfold startCounter
    unfold listMax at h
    cases hs : scanExistingNumbers entries pfx ext with
    | nil => rw [hs] at h; cases h
    | cons n ns =>
      rw [hs] at h
      injection h with h'
      rw [if_pos rfl]
      dsimp only
      rw [h']
      constructor
      · intro hle; rw [if_pos hle]
      · intro hlt; rw [if_neg (not_le.mpr hlt)]

/-- Witness for C3 at the concrete folder contents of the example. -/
theorem C3_initial_counter_witness :
    listMax (scanExistingNumbers entriesC3 "prefix" ".png") = some 5 ∧
    (1 : Int) ≤ 5 ∧
    startCounter entriesC3 "prefix" ".png" 1 true = 5 + 1 :=
  ⟨by decide, by decide,
    ((C3_initial_counter entriesC3 "prefix" ".png" 1 5).2.1 (by decide)).1 (by decide)⟩

/-- State for the C4 witness: counter 1 with image_002.png already present, so
the second file of the batch hits the conflict skip. -/
def stC4w : BatchState :=
  ⟨1, 0, 0, false, ["image_002.png"], [], [], [], []⟩

/-- World for the C4 witness: a.webp and b.png load as RGB while c.png is
unreadable. -/
def worldC4w : World :=
  { baseWorld with
    inputEntries := [⟨"a.webp", true⟩, ⟨"b.png", true⟩, ⟨"c.png", true⟩]
    loadImage := fun n => if n == "c.png" then .error "unreadable" else .ok imgRGB1 }

/-- C4: with renaming enabled, every iteration of the processing loop advances
the counter by exactly one, whatever its outcome: over any batch of N files
the counter grows by exactly N and the per-iteration counter values are the
consecutive run start, start+1, ..., start+N-1 — strictly increasing, never
repeating. -/
theorem C4_counter_increments_once_per_file (cfg : Config) (aliasDir : Bool)
    (world : World) (st : BatchState) (files : List String)
    (h : cfg.rename_files = true) :
    (runLoop cfg aliasDir world st files).counter = st.counter + files.length ∧
    (runLoop cfg aliasDir world st files).trace =
      st.trace ++ (List.range files.length).map (fun (i : Nat) => st.counter + (i : Int)) :=
  runLoop_counter_trace cfg aliasDir world h files st

/-- Witness for C4: a concrete three-file batch in which the first file
converts, the second is skipped on conflict and the third fails to load. -/
theorem C4_counter_increments_once_per_file_witness :
    (runLoop cfgPNG true worldC4w stC4w ["a.webp", "b.png", "c.png"]).counter =
        stC4w.counter + (3 : Nat) ∧
    (runLoop cfgPNG true worldC4w stC4w ["a.webp", "b.png", "c.png"]).trace =
      stC4w.trace ++ (List.range 3).map (fun (i : Nat) => stC4w.counter + (i : Int)) :=
  C4_counter_increments_once_per_file cfgPNG true worldC4w stC4w
    ["a.webp", "b.png", "c.png"] rfl

/-- C7: with the delete-originals flag false, no completed invocation deletes
any source file. -/
theorem C7_default_never_deletes (inputDir : String) (cfg : Config) (world : World)
    (r : ConvResult) (how : cfg.overwrite_originals = false)
    (hr : convert_and_rename_images inputDir cfg world = .ok r) :
    r.deleted = [] := by
  unfold convert_and_rename_images at hr
  by_cases h1 : world.inputExists = false
  · rw [if_pos h1] at hr
    injection hr with hr'
    rw [← hr']
  · rw [if_neg h1] at hr
    by_cases h2 : (cfg.output_folder.isSome && world.mkdirFails) = true
    · rw [if_pos h2] at hr; cases hr
    · rw [if_neg h2] at hr
      by_cases h3 : world.inputIsDir = false
      · rw [if_pos h3] at hr; cases hr
      · rw [if_neg h3] at hr
        dsimp only at hr
        by_cases h4 : (discoverFiles world.inputEntries).isEmpty = true
        · rw [if_pos h4] at hr
          injection hr with hr'
          rw [← hr']
        · rw [if_neg h4] at hr
          injection hr with hr'
          rw [← hr']
          exact (runLoop_deleted_of_no_overwrite cfg _ world how _ _).trans rfl

/-- State for the C7 and C8 witnesses: counter 3, image_003.png already
present in the output folder. -/
def stC8w : BatchState :=
  ⟨3, 0, 0, false, ["image_003.png"], [], [], [], []⟩

/-- C8: in renaming mode, a file whose candidate output name already exists
while delete-originals is false is skipped entirely: one skip log line, the
counter advanced, and nothing else — no write, no deletion, no tally change,
and no dependence on any image I/O (the result only depends on the state, not
on the world). -/
theorem C8_rename_conflict_skips (cfg : Config) (aliasDir : Bool) (world : World)
    (st : BatchState) (src : String)
    (h1 : cfg.rename_files = true) (h2 : cfg.overwrite_originals = false)
    (h3 : st.outDirNames.contains (candidateName cfg st.counter src) = true) :
    stepFile cfg aliasDir world st src =
      { st with
        log := st.log ++ [skipExistsMsg src (candidateName cfg st.counter src)]
        counter := st.counter + 1
        trace := st.trace ++ [st.counter] } := by
  unfold stepFile
  dsimp only
  simp only [h1, h2, h3, Bool.not_false, Bool.and_true, if_true]

/-- Witness for C8: the conflict skip at a concrete state. -/
theorem C8_rename_conflict_skips_witness :
    stepFile cfgPNG true worldC1a stC8w "a.webp" =
      { stC8w with
        log := stC8w.log ++ [skipExistsMsg "a.webp" (candidateName cfgPNG stC8w.counter "a.webp")]
        counter := stC8w.counter + 1
        trace := stC8w.trace ++ [stC8w.counter] } :=
  C8_rename_conflict_skips cfgPNG true worldC1a stC8w "a.webp" rfl rfl (by decide)

/-- C10 (implicit): with delete-originals true the conflict check is bypassed
entirely — every iteration goes straight to conversion (no skip log and no
prompt, so the result never depends on the prompt answers), and on a
successful load and save the candidate file is written even if it already
existed, silently overwriting it; this holds in renaming and non-renaming
modes alike. -/
theorem C10_overwrite_bypasses_conflict_check (cfg : Config) (aliasDir : Bool)
    (world : World) (st : BatchState) (src : String)
    (h : cfg.overwrite_originals = true) :
    (stepFile cfg aliasDir world st src =
      convertPart cfg aliasDir world { st with trace := st.trace ++ [st.counter] } src
        (candidateName cfg st.counter src)) ∧
    (∀ f, stepFile cfg aliasDir { world with userResp := f } st src =
        stepFile cfg aliasDir world st src) ∧
    (∀ img saved, world.loadImage src = .ok img →
      pilSaveJPEG (processImage cfg.output_format img) = .ok saved →
      (stepFile cfg aliasDir world st src).written =
        st.written ++ [(candidateName cfg st.counter src, saved)]) := by
  have hbp : ∀ w' : World, stepFile cfg aliasDir w' st src =
      convertPart cfg aliasDir w' { st with trace := st.trace ++ [st.counter] } src
        (candidateName cfg st.counter src) := by
    intro w'
    unfold stepFile
    dsimp only
    simp only [h, Bool.not_true, Bool.and_false, Bool.false_eq_true, if_false]
  refine ⟨hbp world, fun f => ?_, fun img saved hl hs => ?_⟩
  · rw [hbp, hbp]
    rfl
  · rw [hbp]
    unfold convertPart
    rw [hl]
    dsimp only
    rw [hs]
    dsimp only
    split_ifs <;> rfl

/-- State for the C10 witness: the candidate output a.jpg already exists. -/
def stC10w : BatchState :=
  ⟨5, 0, 0, false, ["a.jpg"], [], [], [], []⟩

/-- The file the C10 witness expects to be (over)written. -/
def savedC10w : SavedFile :=
  ⟨"JPEG", 95, true, processImage "JPEG" imgRGB1⟩

/-- Witness for C10: with delete-originals set, the already existing candidate
a.jpg is silently overwritten. -/
theorem C10_overwrite_bypasses_conflict_check_witness :
    (stepFile cfgC6ex true worldC6ex stC10w "a.jpg").written =
      stC10w.written ++ [(candidateName cfgC6ex stC10w.counter "a.jpg", savedC10w)] :=
  (C10_overwrite_bypasses_conflict_check cfgC6ex true worldC6ex stC10w "a.jpg" rfl).2.2
    imgRGB1 savedC10w rfl rfl

/-- C5 (amended): the two documented terminal conditions return normally with
only a log line and no writes or deletions, and the whole invocation returns
without raising whenever the input path is a directory and creating the
explicit output folder succeeds; the uncovered failure modes (those two
resolution steps) are the ones exhibited by the counterexample. -/
theorem C5_amended_error_paths (inputDir : String) (cfg : Config) (world : World) :
    (world.inputExists = false →
      convert_and_rename_images inputDir cfg world =
        .ok ⟨["Error: Folder '" ++ inputDir ++ "' does not exist."], [], [], 0, 0, 0, []⟩) ∧
    ((cfg.output_folder.isSome = true → world.mkdirFails = false) →
      world.inputIsDir = true →
      (convert_and_rename_images inputDir cfg world).isOk = true) ∧
    (world.inputExists = true →
      (cfg.output_folder.isSome = true → world.mkdirFails = false) →
      world.inputIsDir = true →
      (discoverFiles world.inputEntries).isEmpty = true →
      convert_and_rename_images inputDir cfg world =
        .ok ⟨["No supported image files found in the folder."], [], [], 0, 0, 0, []⟩) := by
  have hmk : ∀ (hm : cfg.output_folder.isSome = true → world.mkdirFails = false),
      (cfg.output_folder.isSome && world.mkdirFails) = false := by
    intro hm
    cases hos : cfg.output_folder.isSome with
    | false => rfl
    | true => rw [hm hos]; rfl
  refine ⟨fun h1 => ?_, fun hm hdir => ?_, fun h1 hm hdir hempty => ?_⟩
  · unfold convert_and_rename_images
    rw [if_pos h1]
  · unfold convert_and_rename_images
    by_cases h1 : world.inputExists = false
    · rw [if_pos h1]; rfl
    · rw [if_neg h1, if_neg (by rw [hmk hm]; exact Bool.false_ne_true),
        if_neg (by rw [hdir]; exact fun hx => Bool.noConfusion hx)]
      dsimp only
      split_ifs <;> rfl
  · unfold convert_and_rename_images
    rw [if_neg (by rw [h1]; exact fun hx => Bool.noConfusion hx),
      if_neg (by rw [hmk hm]; exact Bool.false_ne_true),
      if_neg (by rw [hdir]; exact fun hx => Bool.noConfusion hx)]
    dsimp only
    rw [if_pos hempty]

/-- World for the C5 witness: missing input folder. -/
def worldC5w1 : World := { baseWorld with inputExists := false }

/-- World for the C5 witness: input folder with no supported files. -/
def worldC5w2 : World := { baseWorld with inputEntries := [⟨"notes.txt", true⟩] }

/-- Witness for C5 (amended): the two terminal conditions at concrete worlds. -/
theorem C5_amended_error_paths_witness :
    convert_and_rename_images "/missing" cfgPNG worldC5w1 =
      .ok ⟨["Error: Folder '" ++ "/missing" ++ "' does not exist."], [], [], 0, 0, 0, []⟩ ∧
    convert_and_rename_images "/in" cfgPNG worldC5w2 =
      .ok ⟨["No supported image files found in the folder."], [], [], 0, 0, 0, []⟩ :=
  ⟨(C5_amended_error_paths "/missing" cfgPNG worldC5w1).1 rfl,
   (C5_amended_error_paths "/in" cfgPNG worldC5w2).2.2 rfl (fun _ => rfl) rfl (by decide)⟩

/-- C6 (amended): a source file is deleted only when the delete-originals flag
is set AND (an explicit output folder was specified OR the output filename
differs from the source filename); consequently in in-place mode (no explicit
output folder) a source that coincides with its own output name is never
deleted — but, as the counterexample shows, an explicit output folder equal to
the input folder does not enjoy that protection. -/
theorem C6_amended_delete_condition (cfg : Config) (aliasDir : Bool) (world : World)
    (st : BatchState) (src : String) :
    ((stepFile cfg aliasDir world st src).deleted = st.deleted ∨
      (stepFile cfg aliasDir world st src).deleted = st.deleted ++ [src]) ∧
    ((stepFile cfg aliasDir world st src).deleted ≠ st.deleted →
      cfg.overwrite_originals = true ∧
      (cfg.output_folder.isSome = true ∨ src ≠ candidateName cfg st.counter src)) ∧
    (cfg.output_folder = none → src = candidateName cfg st.counter src →
      (stepFile cfg aliasDir world st src).deleted = st.deleted) := by
  rcases stepFile_deleted cfg aliasDir world st src with h1 | ⟨h1, h2, h3⟩
  · exact ⟨Or.inl h1, fun hne => absurd h1 hne, fun _ _ => h1⟩
  · refine ⟨Or.inr h1, fun _ => ⟨h2, h3⟩, ?_⟩
    intro hnone heq
    rcases h3 with h3 | h3
    · rw [hnone] at h3; cases h3
    · exact absurd heq h3

/-- State for the C6 witness. -/
def stC6w : BatchState :=
  ⟨1, 0, 0, false, ["a.jpg"], [], [], [], []⟩

/-- Witness for C6 (amended): at the counterexample configuration the deletion
happens and the deletion condition is forced. -/
theorem C6_amended_delete_condition_witness :
    cfgC6ex.overwrite_originals = true ∧
    (cfgC6ex.output_folder.isSome = true ∨ "a.jpg" ≠ candidateName cfgC6ex stC6w.counter "a.jpg") :=
  (C6_amended_delete_condition cfgC6ex true worldC6ex stC6w "a.jpg").2.1 (by decide)

/-- Blending a channel onto white with mask value 0 yields white. -/
theorem blendChan_zero (v : Nat) : blendChan 255 v 0 = 255 := by
  norm_num [blendChan, muldiv255]

/-- C2 (amended): for JPEG output, RGBA and P images are flattened exactly as
the spec's composite describes (P expanded to RGBA first, alpha used as blend
mask); an LA image, however, is pasted without a mask, so its alpha channel is
ignored and each pixel becomes its luminance replicated; any other non-RGB
mode is converted to plain RGB; and converting an RGBA image never fails the
save, with every alpha-0 pixel opaque white in the output. -/
theorem C2_amended_flattening (img : PImage) :
    (img.mode = .RGBA → processImage "JPEG" img = specCompositeWhite img) ∧
    (img.mode = .P → processImage "JPEG" img = specCompositeWhite img) ∧
    (img.mode = .LA → ∀ x y : Nat, (processImage "JPEG" img).px x y =
      ((img.px x y).1, (img.px x y).1, (img.px x y).1, 255)) ∧
    (img.mode = .L → processImage "JPEG" img = convertRGB img) ∧
    (img.mode = .RGB → processImage "JPEG" img = img) ∧
    (img.mode = .RGBA → (pilSaveJPEG (processImage "JPEG" img)).isOk = true) ∧
    (img.mode = .RGBA → ∀ x y : Nat, (img.px x y).2.2.2 = 0 →
      (processImage "JPEG" img).px x y = (255, 255, 255, 255)) := by
  obtain ⟨w, ht, m, px, pal⟩ := img
  refine ⟨fun hm => ?_, fun hm => ?_, fun hm => ?_, fun hm => ?_, fun hm => ?_,
    fun hm => ?_, fun hm => ?_⟩
  all_goals dsimp only at hm
  all_goals subst hm
  · rfl
  · rfl
  · intro x y; rfl
  · rfl
  · rfl
  · rfl
  · intro x y ha
    dsimp only at ha
    show (blendChan 255 ((px x y).1) ((px x y).2.2.2),
          blendChan 255 ((px x y).2.1) ((px x y).2.2.2),
          blendChan 255 ((px x y).2.2.1) ((px x y).2.2.2),
          255) = (255, 255, 255, 255)
    rw [ha, blendChan_zero, blendChan_zero, blendChan_zero]

/-- Witness for C2 (amended) at the fully transparent RGBA fixture. -/
theorem C2_amended_flattening_witness :
    processImage "JPEG" imgRGBA1 = specCompositeWhite imgRGBA1 ∧
    (pilSaveJPEG (processImage "JPEG" imgRGBA1)).isOk = true ∧
    (processImage "JPEG" imgRGBA1).px 0 0 = (255, 255, 255, 255) :=
  ⟨(C2_amended_flattening imgRGBA1).1 rfl,
   (C2_amended_flattening imgRGBA1).2.2.2.2.2.1 rfl,
   (C2_amended_flattening imgRGBA1).2.2.2.2.2.2 rfl 0 0 rfl⟩

/-- Result of a concrete completed run, for the C7 witness. -/
def rC7w : ConvResult :=
  (convert_and_rename_images "/in" cfgPNG worldC1a).toOption.getD ⟨[], [], [], 0, 0, 0, []⟩

/-- Witness for C7: the concrete run with the default flag deletes nothing. -/
theorem C7_default_never_deletes_witness : rC7w.deleted = [] :=
  C7_default_never_deletes "/in" cfgPNG worldC1a rC7w rfl rfl
